import Mathlib

/-!
Verification development for the moon repository (a chat-bot that publishes
drama posts to a JSON website snapshot).  The definitions below are shallow
embeddings of the Python source: `file_handler.py` (upload pipeline and title
extraction), `website_manager.py` (snapshot document and search index) and
`bot.py` (publish-session finish handlers).  Strings are modelled over
`List Char` with ASCII semantics for lowering, whitespace and title-casing,
matching the character data actually used by the program.
-/

namespace Moon

/-! ## Python string primitives (ASCII fragment) -/

/-- Whitespace characters recognised by Python str.split and str.strip
(ASCII subset). -/
def pySpace (c : Char) : Bool :=
  c = ' ' || c = '\t' || c = '\n' || c = '\r' || c = '\x0b' || c = '\x0c'

/-- Python str.lower, ASCII fragment (maps A-Z to a-z). -/
def pyLower (l : List Char) : List Char :=
  l.map Char.toLower

/-- Python str.strip with no arguments: drop whitespace from both ends. -/
def pyStrip (l : List Char) : List Char :=
  ((l.dropWhile pySpace).reverse.dropWhile pySpace).reverse

/-- Accumulator version of Python str.split with no arguments:
split on runs of whitespace, discarding empty pieces. -/
def pySplitAux : List Char → List Char → List (List Char)
  | [], acc => if acc.isEmpty then [] else [acc.reverse]
  | c :: cs, acc =>
    if pySpace c then
      if acc.isEmpty then pySplitAux cs [] else acc.reverse :: pySplitAux cs []
    else pySplitAux cs (c :: acc)

/-- Python str.split with no arguments. -/
def pySplit (l : List Char) : List (List Char) :=
  pySplitAux l []

/-- Python " ".join on a list of words. -/
def joinSpace (ws : List (List Char)) : List Char :=
  List.intercalate [' '] ws

/-- Helper for Python str.title, carrying whether the previous character
was cased (for ASCII: alphabetic). -/
def pyTitleAux : Bool → List Char → List Char
  | _, [] => []
  | prevCased, c :: cs =>
    if c.isAlpha then
      (if prevCased then c.toLower else c.toUpper) :: pyTitleAux true cs
    else
      c :: pyTitleAux false cs

/-- Python str.title: the first letter of every maximal alphabetic run is
uppercased, the rest lowercased; other characters are untouched. -/
def pyTitle (l : List Char) : List Char :=
  pyTitleAux false l

/-- Python substring test: pat occurs contiguously inside s
(the Python expression pat in s). -/
def pyContains : List Char → List Char → Bool
  | s, pat =>
    match s with
    | [] => pat.isEmpty
    | _ :: rest => pat.isPrefixOf s || pyContains rest pat

/-! ## The six regular-expression passes of extract_drama_name

Each matcher receives the suffix of the input starting at the current scan
position and returns the length of the (Python-greedy) match there, if any.
All six patterns only ever produce non-empty matches. -/

/-- Matcher for the pattern `[Ee]p?\d+` (episode markers).  The optional
lowercase p is taken greedily; if no digits follow it, backtracking to the
p-less branch also fails because p is not a digit. -/
def matchEp : List Char → Option Nat
  | [] => none
  | c :: rest =>
    if c = 'E' || c = 'e' then
      match rest with
      | 'p' :: rest2 =>
        let d := (rest2.takeWhile Char.isDigit).length
        if d > 0 then some (2 + d) else none
      | _ =>
        let d := (rest.takeWhile Char.isDigit).length
        if d > 0 then some (1 + d) else none
    else none

/-- Matcher for the pattern `[Ss]\d+` (season markers). -/
def matchS : List Char → Option Nat
  | [] => none
  | c :: rest =>
    if c = 'S' || c = 's' then
      let d := (rest.takeWhile Char.isDigit).length
      if d > 0 then some (1 + d) else none
    else none

/-- Matcher for `\.mkv$|\.mp4$|\.avi$|\.mov$` (file extensions anchored at
the end).  In Python the dollar anchor also matches just before a trailing
newline. -/
def matchExt (s : List Char) : Option Nat :=
  let atEnd : Bool := (s.drop 4).isEmpty || s.drop 4 == ['\n']
  let exts : List (List Char) :=
    [['.', 'm', 'k', 'v'], ['.', 'm', 'p', '4'], ['.', 'a', 'v', 'i'], ['.', 'm', 'o', 'v']]
  if exts.any (fun e => e.isPrefixOf s) && atEnd then some 4 else none

/-- Matcher for `\[.*?\]` (bracketed annotations).  The non-greedy body
stops at the first closing bracket; a dot never matches a newline, so an
intervening newline kills the match. -/
def matchBracket : List Char → Option Nat
  | '[' :: rest =>
    let inner := rest.takeWhile (fun c => !(c == ']') && !(c == '\n'))
    match rest.drop inner.length with
    | ']' :: _ => some (inner.length + 2)
    | _ => none
  | _ => none

/-- Matcher for `\(.*?\)` (parenthesised annotations). -/
def matchParen : List Char → Option Nat
  | '(' :: rest =>
    let inner := rest.takeWhile (fun c => !(c == ')') && !(c == '\n'))
    match rest.drop inner.length with
    | ')' :: _ => some (inner.length + 2)
    | _ => none
  | _ => none

/-- Matcher for `[_-]` (separator characters). -/
def matchSep : List Char → Option Nat
  | [] => none
  | c :: _ => if c = '_' || c = '-' then some 1 else none

/-- Fuelled driver for re.sub with a single-space replacement: scan left to
right, replacing each non-overlapping leftmost match and continuing after
it, copying one character on failure.  Every match of the patterns above
consumes at least one character, so fuel equal to the input length always
suffices; the fuel-exhaustion branch is unreachable for such inputs. -/
def reSubSpAux (m : List Char → Option Nat) : Nat → List Char → List Char
  | 0, l => l
  | _, [] => []
  | fuel + 1, c :: cs =>
    match m (c :: cs) with
    | some (n + 1) => ' ' :: reSubSpAux m fuel (cs.drop n)
    | _ => c :: reSubSpAux m fuel cs

/-- re.sub of one pattern by a single space over a whole string. -/
def reSubSp (m : List Char → Option Nat) (l : List Char) : List Char :=
  reSubSpAux m l.length l

/-- The six re.sub passes of extract_drama_name followed by whitespace
collapsing and title-casing (lines 79-96 of file_handler.py). -/
def cleanDramaName (filename : List Char) : List Char :=
  let s1 := reSubSp matchEp filename
  let s2 := reSubSp matchS s1
  let s3 := reSubSp matchExt s2
  let s4 := reSubSp matchBracket s3
  let s5 := reSubSp matchParen s4
  let s6 := reSubSp matchSep s5
  pyTitle (joinSpace (pySplit s6))

/-! ## Upload pipeline (file_handler.py) -/

/-- A Telegram document as seen by the handlers: the fields read by
process_files and extract_drama_name.  A missing filename is none; Python
also treats an empty filename as falsy. -/
structure TgDoc where
  file_id : String
  file_name : Option String
  file_size : Nat
  mime_type : String
deriving DecidableEq

/-- FileHandler.extract_drama_name (file_handler.py lines 70-102). -/
def extract_drama_name (files : List TgDoc) : String :=
  match files with
  | [] => "New Drama Post"
  | f :: _ =>
    match f.file_name with
    | none => "New Drama Post"
    | some nm =>
      if nm = "" then "New Drama Post"
      else
        let dn := cleanDramaName nm.toList
        if (pyStrip dn).isEmpty then "New Drama Post" else String.mk dn

/-- Outcome of the Telegram getFile lookup performed by
get_file_direct_link: the request may raise, return a non-200 status, or
return a file path. -/
inductive LinkOutcome where
  | throws
  | badStatus
  | ok (filePath : String)
deriving DecidableEq

/-- External behaviour the pipeline depends on, one call per file id:
the getFile lookup, the ouo.io shortener (none models both a non-200
response and a raised exception, in which case shorten_url falls back to
the original url), whether the database insert for the file raises, and
the current timestamp. -/
structure PipelineEnv where
  token : String
  resolve : String → LinkOutcome
  shortenResult : String → Option String
  insertThrows : String → Bool
  now : String

/-- FileHandler.get_file_direct_link (file_handler.py lines 22-36): any
exception is caught inside the function and converted to None, as is a
non-200 status. -/
def get_file_direct_link (env : PipelineEnv) (file_id : String) : Option String :=
  match env.resolve file_id with
  | .ok p => some ("https://api.telegram.org/file/bot" ++ env.token ++ "/" ++ p)
  | _ => none

/-- FileHandler.shorten_url (file_handler.py lines 11-20): on failure of
any kind the original url is returned. -/
def shorten_url (env : PipelineEnv) (original_url : String) : String :=
  (env.shortenResult original_url).getD original_url

/-- The file_data dictionary built and stored by process_files. -/
structure FileData where
  file_id : String
  file_name : String
  channel_link : String
  direct_link : Option String
  shortened_link : Option String
  file_size : Nat
  mime_type : String
  uploaded_at : String
deriving DecidableEq

/-- FileHandler.process_files (file_handler.py lines 38-68).  The only
statement inside the per-item try that can raise is the database insert
(link resolution and shortening swallow their own exceptions); an item
whose insert raises is logged and skipped, everything else is appended. -/
def process_files (env : PipelineEnv) : List TgDoc → String → List FileData
  | [], _ => []
  | f :: rest, channel_link =>
    let nm :=
      match f.file_name with
      | some s => if s = "" then "file_" ++ f.file_id else s
      | none => "file_" ++ f.file_id
    let dl := get_file_direct_link env f.file_id
    let sl :=
      match dl with
      | some u => some (shorten_url env u)
      | none => none
    let fd : FileData :=
      ⟨f.file_id, nm, channel_link, dl, sl, f.file_size, f.mime_type, env.now⟩
    if env.insertThrows f.file_id then process_files env rest channel_link
    else fd :: process_files env rest channel_link

/-! ## Snapshot document (website_manager.py)

A post record is a Python dictionary; the operations below only ever read
and write string-valued entries, so a record is modelled as an association
list from keys to strings with unique keys.  The document itself always
has exactly the five top-level keys created by load_data. -/

/-- A post-like record of the snapshot document. -/
abbrev Post := List (String × String)

/-- Python dict.get with a default. -/
def dget (p : Post) (k dflt : String) : String :=
  match p.find? (fun kv => kv.1 == k) with
  | some kv => kv.2
  | none => dflt

/-- Python key-membership test on a dict. -/
def dcontains (p : Post) (k : String) : Bool :=
  p.any (fun kv => kv.1 == k)

/-- Python dict item assignment: update in place if the key exists, else
append the new key at the end (insertion order). -/
def dset (p : Post) (k v : String) : Post :=
  if dcontains p k then p.map (fun kv => if kv.1 == k then (k, v) else kv)
  else p ++ [(k, v)]

/-- The snapshot document self.data: the five sequences created by
load_data (website_manager.py lines 17-26). -/
structure SiteData where
  home_posts : List Post
  ongoing_dramas : List Post
  blog_posts : List Post
  all_posts : List Post
  search_data : List Post
deriving DecidableEq

/-- The keys of the document, in creation order; the Python test
section in self.data is membership in this list. -/
def sectionKeys : List String :=
  ["home_posts", "ongoing_dramas", "blog_posts", "all_posts", "search_data"]

/-- self.data[s] for the five keys. -/
def getSection (d : SiteData) (s : String) : List Post :=
  if s = "home_posts" then d.home_posts
  else if s = "ongoing_dramas" then d.ongoing_dramas
  else if s = "blog_posts" then d.blog_posts
  else if s = "all_posts" then d.all_posts
  else if s = "search_data" then d.search_data
  else []

/-- self.data[s] = v for the five keys. -/
def setSection (d : SiteData) (s : String) (v : List Post) : SiteData :=
  if s = "home_posts" then { d with home_posts := v }
  else if s = "ongoing_dramas" then { d with ongoing_dramas := v }
  else if s = "blog_posts" then { d with blog_posts := v }
  else if s = "all_posts" then { d with all_posts := v }
  else if s = "search_data" then { d with search_data := v }
  else d

/-- str.lower on a whole string. -/
def lowerStr (s : String) : String :=
  String.mk (pyLower s.toList)

/-- Projection of an ongoing_dramas record into the search index
(website_manager.py lines 125-133). -/
def projOngoing (p : Post) : Post :=
  [("title", dget p "title" ""), ("type", "Drama"), ("category", "ongoing"),
   ("image", dget p "image" ""), ("channel_link", dget p "channel_link" ""),
   ("timestamp", dget p "timestamp" "")]

/-- Projection of an all_posts record (lines 136-144). -/
def projAll (p : Post) : Post :=
  [("title", dget p "title" ""), ("type", "Drama"), ("category", "all_posts"),
   ("image", dget p "image" ""), ("channel_link", dget p "channel_link" ""),
   ("timestamp", dget p "timestamp" "")]

/-- Projection of a blog_posts record (lines 147-155). -/
def projBlog (p : Post) : Post :=
  [("title", dget p "title" ""), ("type", "Article"), ("category", "blog"),
   ("image", dget p "image" ""), ("preview", dget p "preview" ""),
   ("timestamp", dget p "timestamp" "")]

/-- Projection of a home_posts record (lines 158-166). -/
def projHome (p : Post) : Post :=
  [("title", dget p "title" ""), ("type", "Drama"), ("category", "home"),
   ("image", dget p "image" ""), ("excerpt", dget p "excerpt" ""),
   ("timestamp", dget p "timestamp" "")]

/-- The raw search_data list before deduplication, in the section
iteration order of update_search_data: ongoing, all_posts, blog, home. -/
def rawSearchItems (d : SiteData) : List Post :=
  d.ongoing_dramas.map projOngoing ++ d.all_posts.map projAll ++
    d.blog_posts.map projBlog ++ d.home_posts.map projHome

/-- The deduplication loop of update_search_data (lines 168-176): keep an
item when its lowercased title is non-empty and unseen. -/
def dedupByTitle : List Post → List String → List Post
  | [], _ => []
  | item :: rest, seen =>
    let t := lowerStr (dget item "title" "")
    if !(t == "") && !(seen.contains t) then item :: dedupByTitle rest (t :: seen)
    else dedupByTitle rest seen

/-- WebsiteManager.update_search_data (website_manager.py lines 119-186):
rebuilds search_data from the four content sequences and reports True.
Saving to disk is outside the model. -/
def update_search_data (d : SiteData) : Bool × SiteData :=
  (true, { d with search_data := dedupByTitle (rawSearchItems d) [] })

/-- WebsiteManager.add_to_section (website_manager.py lines 48-73).
The validity test is membership of the key in self.data, whose keys are
the five of sectionKeys; a timestamp is stamped only when absent; the
record is inserted at the front and the search index recomputed. -/
def add_to_section (d : SiteData) (sec : String) (post_data : Post) (now : String) :
    Bool × SiteData :=
  if !(sectionKeys.contains sec) then (false, d)
  else
    let pd := if dcontains post_data "timestamp" then post_data
              else dset post_data "timestamp" now
    let d1 := setSection d sec (pd :: getSection d sec)
    (true, (update_search_data d1).2)

/-- The search loop of move_post (lines 86-90): index and value of the
first record whose lowercased title equals the lowercased query. -/
def findTitleAux (t : String) : Nat → List Post → Option (Nat × Post)
  | _, [] => none
  | i, p :: rest =>
    if lowerStr (dget p "title" "") == t then some (i, p)
    else findTitleAux t (i + 1) rest

/-- First title match in a section, with its index. -/
def findTitle (src : List Post) (t : String) : Option (Nat × Post) :=
  findTitleAux t 0 src

/-- WebsiteManager.move_post (website_manager.py lines 75-117).  Note the
Python guard if not post_to_move is a falsiness test: it reports failure
both when no record matched and when the first matching record is the
empty dictionary. -/
def move_post (d : SiteData) (from_section to_section post_title now : String) :
    Bool × SiteData :=
  if !(sectionKeys.contains from_section) || !(sectionKeys.contains to_section) then
    (false, d)
  else
    let src := getSection d from_section
    match findTitle src (lowerStr post_title) with
    | none => (false, d)
    | some (i, post) =>
      if post.isEmpty then (false, d)
      else
        let d1 := setSection d from_section (src.eraseIdx i)
        let post2 := dset (dset post "timestamp" now) "moved_from" from_section
        let d2 := setSection d1 to_section (post2 :: getSection d1 to_section)
        (true, (update_search_data d2).2)

/-! ## Search (website_manager.py lines 207-262) -/

/-- WebsiteManager.calculate_match_score on already-lowercased fields. -/
def calculate_match_score (query title excerpt content : List Char) : Nat :=
  (if pyContains title query then 10 else 0) +
    (if title == query then 5 else 0) +
    (if pyContains excerpt query then 3 else 0) +
    (if pyContains content query then 1 else 0)

/-- One search result: the matched record together with the category and
match_score entries that search_content adds to the returned dictionary. -/
structure SearchHit where
  item : Post
  category : String
  match_score : Nat
deriving DecidableEq

/-- The inner loop of search_content over one section: lowercase the three
fields, keep the record when the query occurs in any of them, and score
it. -/
def scanSection (items : List Post) (secName : String) (q : List Char) : List SearchHit :=
  items.filterMap (fun item =>
    let t := pyLower (dget item "title" "").toList
    let e := pyLower (dget item "excerpt" "").toList
    let c := pyLower (dget item "content" "").toList
    if pyContains t q || pyContains e q || pyContains c q then
      some ⟨item, secName, calculate_match_score q t e c⟩
    else none)

/-- All hits, in the section order of the search loop (line 217):
home_posts, ongoing_dramas, all_posts, blog_posts. -/
def collectHits (d : SiteData) (q : List Char) : List SearchHit :=
  scanSection d.home_posts "home_posts" q ++
    scanSection d.ongoing_dramas "ongoing_dramas" q ++
      scanSection d.all_posts "all_posts" q ++
        scanSection d.blog_posts "blog_posts" q

/-- Score buckets n-1, n-2, ..., 0 in that order, each bucket keeping the
input order of its members. -/
def bucketsDesc (l : List SearchHit) : Nat → List SearchHit
  | 0 => []
  | n + 1 => l.filter (fun h => h.match_score == n) ++ bucketsDesc l n

/-- The Python stable sort results.sort(key=match_score, reverse=True)
(line 233): scores produced by calculate_match_score never exceed
10 + 5 + 3 + 1 = 19, and for lists of such hits the bucket concatenation
below is exactly the stable descending-by-score reordering. -/
def sortByScoreDesc (l : List SearchHit) : List SearchHit :=
  bucketsDesc l 20

/-- WebsiteManager.search_content (website_manager.py lines 207-240):
lowercase and strip the query, return nothing for an empty result of that
normalisation, otherwise collect, score, stable-sort descending and keep
the first ten. -/
def search_content (d : SiteData) (q : String) : List SearchHit :=
  let qn := pyStrip (pyLower q.toList)
  if qn.isEmpty then []
  else (sortByScoreDesc (collectHits d qn)).take 10

/-! ## Publish-session finish handlers (bot.py) -/

/-- The per-user accumulator context.user_data read by the finish
handlers: channel link, the optional image path used for the website
record, and the accumulated file list (missing key reads as the empty
list). -/
structure SessionData where
  channel_link : String
  image_path : Option String
  files : List TgDoc
deriving DecidableEq

/-- The website post dictionary assembled by finalize_post. -/
structure PostData where
  title : String
  image : Option String
  channel_link : String
  files_count : Nat
  file_names : List String
  timestamp : String
  target_section : String
deriving DecidableEq

/-- What a finish action produced: the reply sent to the user, whether the
conversation ended, the file records inserted into the database, the post
record inserted into the database, and the website section the post was
added to. -/
structure CommitOutcome where
  response : String
  ended : Bool
  fileRecords : List FileData
  postRecord : Option PostData
  websiteSection : Option String
deriving DecidableEq

/-- DramawallahBot.finalize_post (bot.py lines 307-382): an empty
accumulated file list is rejected before any processing; an all-failed
batch is also rejected; otherwise the file records, the post record and
the website entry are created and the conversation ends. -/
def finalize_post (env : PipelineEnv) (s : SessionData) : CommitOutcome :=
  if s.files.isEmpty then
    { response := "❌ No files received. Please start over with /addpost",
      ended := true, fileRecords := [], postRecord := none, websiteSection := none }
  else
    let processed := process_files env s.files s.channel_link
    if processed.isEmpty then
      { response := "❌ Failed to process files. Please try again.",
        ended := true, fileRecords := processed, postRecord := none,
        websiteSection := none }
    else
      let post_data : PostData :=
        { title := extract_drama_name s.files, image := s.image_path,
          channel_link := s.channel_link, files_count := processed.length,
          file_names := processed.map (fun f => f.file_name),
          timestamp := env.now, target_section := "all_posts" }
      { response := "✅ **Post Created Successfully!** 🎬",
        ended := true, fileRecords := processed, postRecord := some post_data,
        websiteSection := some "all_posts" }

/-- The conversation state returned by handle_ongoing_files_decision. -/
inductive OngoingNext where
  | moreFiles
  | completionPrompt
  | ended
deriving DecidableEq

/-- DramawallahBot.handle_ongoing_files_decision (bot.py lines 462-496):
the more-files button loops; any other button is the finish action, which
commits only when the accumulated file list is non-empty and otherwise
rejects and ends the conversation. -/
def handle_ongoing_files_decision (env : PipelineEnv) (choice : String)
    (s : SessionData) : CommitOutcome × OngoingNext :=
  if choice = "more_ongoing_files" then
    ({ response := "📤 Send more files...", ended := false, fileRecords := [],
       postRecord := none, websiteSection := none }, .moreFiles)
  else
    if !s.files.isEmpty then
      ({ response := "Is this drama completed?", ended := false,
         fileRecords := process_files env s.files s.channel_link,
         postRecord := none, websiteSection := none }, .completionPrompt)
    else
      ({ response := "❌ No files received. Use /ongoing to try again.",
         ended := true, fileRecords := [], postRecord := none,
         websiteSection := none }, .ended)

/-! ## Helper lemmas -/

theorem pySpace_toLower {c : Char} (h : pySpace c = true) : c.toLower = c := by
  simp only [pySpace, Bool.or_eq_true, decide_eq_true_eq] at h
  rcases h with ((((rfl | rfl) | rfl) | rfl) | rfl) | rfl <;> decide

theorem pyStrip_eq_nil {l : List Char} (h : ∀ c ∈ l, pySpace c = true) :
    pyStrip l = [] := by
  unfold pyStrip
  rw [List.dropWhile_eq_nil_iff.mpr h]
  rfl

theorem dedup_title_nonempty :
    ∀ (l : List Post) (seen : List String) (p : Post),
      p ∈ dedupByTitle l seen → lowerStr (dget p "title" "") ≠ "" := by
  intro l
  induction l with
  | nil => intro seen p h; simp [dedupByTitle] at h
  | cons x rest ih =>
    intro seen p h
    simp only [dedupByTitle] at h
    by_cases hc : (!(lowerStr (dget x "title" "") == "") &&
        !(List.contains seen (lowerStr (dget x "title" "")))) = true
    · rw [if_pos hc] at h
      rcases List.mem_cons.mp h with rfl | h2
      · intro he
        rw [he] at hc
        simp at hc
      · exact ih _ _ h2
    · rw [if_neg hc] at h
      exact ih _ _ h

/-! ## Claim C5 -/

/-- C5: update_search_data is idempotent — for every document state,
running it twice with no intervening change to the four content sequences
produces the same search_data sequence as running it once, because the
recomputation reads only the four content sequences and never the previous
search_data. -/
theorem C5_update_search_data_idempotent (d : SiteData) :
    (update_search_data (update_search_data d).2).2.search_data =
      (update_search_data d).2.search_data := rfl

/-! ## Claim C9 -/

/-- C9: for every query consisting only of whitespace (the empty string
included, vacuously), search_content returns the empty result list
whatever the document contains: the query is lowercased and stripped, and
an empty normalised query short-circuits before any section is examined. -/
theorem C9_whitespace_query (d : SiteData) (q : String)
    (h : ∀ c ∈ q.toList, pySpace c = true) : search_content d q = [] := by
  have h2 : ∀ c ∈ pyLower q.toList, pySpace c = true := by
    intro c hc
    rcases List.mem_map.mp hc with ⟨c0, hc0, rfl⟩
    rw [pySpace_toLower (h c0 hc0)]
    exact h c0 hc0
  simp only [search_content]
  rw [pyStrip_eq_nil h2]
  rfl

/-- Witness for C9 at the whitespace query on a document with a matching
record. -/
theorem C9_witness :
    search_content ⟨[[("title", "My Drama Show")]], [], [], [], []⟩ " \t " = [] :=
  C9_whitespace_query _ _ (by decide)

/-! ## Claim C10 -/

/-- C10: after update_search_data, every element of search_data has a
non-empty title — records whose title is missing (read as the empty
string) or empty are excluded from the index by the deduplication loop,
not merely deduplicated. -/
theorem C10_search_titles_nonempty (d : SiteData) (p : Post)
    (hp : p ∈ (update_search_data d).2.search_data) : dget p "title" "" ≠ "" := by
  intro he
  have h := dedup_title_nonempty _ _ _ (by simpa [update_search_data] using hp)
  rw [he] at h
  exact h (by decide)

/-- Witness for C10 on a one-record document. -/
theorem C10_witness :
    dget [("title", "Alpha"), ("type", "Drama"), ("category", "ongoing"),
      ("image", ""), ("channel_link", ""), ("timestamp", "")] "title" "" ≠ "" :=
  C10_search_titles_nonempty ⟨[], [[("title", "Alpha")]], [], [], []⟩ _ (by decide)

/-! ## Claim C8 -/

/-- C8: a publish session (addpost finalization or the ongoing-files
finish button) that reaches the finish action with an empty accumulated
file list is rejected with an explicit nothing-to-commit reply, the
conversation ends, and no file record, post record or website-section
entry is created. -/
theorem C8_empty_commit_rejected (env : PipelineEnv) (s : SessionData)
    (hfiles : s.files = []) (choice : String)
    (hchoice : choice ≠ "more_ongoing_files") :
    finalize_post env s =
      { response := "❌ No files received. Please start over with /addpost",
        ended := true, fileRecords := [], postRecord := none,
        websiteSection := none } ∧
    handle_ongoing_files_decision env choice s =
      ({ response := "❌ No files received. Use /ongoing to try again.",
         ended := true, fileRecords := [], postRecord := none,
         websiteSection := none }, .ended) := by
  constructor
  · simp [finalize_post, hfiles]
  · simp [handle_ongoing_files_decision, hfiles, hchoice]

/-- A concrete external environment for witnesses and counterexamples:
every getFile lookup succeeds except the one for file f2, which raises;
the shortener always fails (so shorten_url falls back to the direct
link); no database insert raises. -/
def testEnv : PipelineEnv :=
  { token := "tok",
    resolve := fun fid => if fid = "f2" then .throws else .ok ("path/" ++ fid),
    shortenResult := fun _ => none,
    insertThrows := fun _ => false,
    now := "2024-01-01T00:00:00" }

/-- Witness for C8 on a session whose file list is empty. -/
theorem C8_witness :
    finalize_post testEnv ⟨"@chan", none, []⟩ =
      { response := "❌ No files received. Please start over with /addpost",
        ended := true, fileRecords := [], postRecord := none,
        websiteSection := none } ∧
    handle_ongoing_files_decision testEnv "finish_ongoing_files" ⟨"@chan", none, []⟩ =
      ({ response := "❌ No files received. Use /ongoing to try again.",
         ended := true, fileRecords := [], postRecord := none,
         websiteSection := none }, .ended) :=
  C8_empty_commit_rejected testEnv ⟨"@chan", none, []⟩ rfl
    "finish_ongoing_files" (by decide)

/-! ## Claim C1 -/

/-- C1 counterexample: on the file list whose first display name is
MyShow.S01E02.1080p.mkv, extract_drama_name does not return Myshow — no
pattern removes the dots, so the actual result keeps them and the p of
1080p is title-cased after the digit. -/
theorem C1_counterexample :
    extract_drama_name [⟨"f1", some "MyShow.S01E02.1080p.mkv", 100,
      "video/x-matroska"⟩] ≠ "Myshow" ∧
    extract_drama_name [⟨"f1", some "MyShow.S01E02.1080p.mkv", 100,
      "video/x-matroska"⟩] = "Myshow. .1080P" := by
  exact ⟨by decide, by decide⟩

/-- C1 (amended): on the MyShow.S01E02.1080p.mkv example
extract_drama_name returns exactly Myshow. .1080P; and it returns the
placeholder New Drama Post whenever the file list is empty, the first
file has no name (None or the empty string, both falsy in Python), or the
stripping transformation leaves only whitespace. -/
theorem C1_extract_drama_name (f : TgDoc) (rest : List TgDoc) (nm : String) :
    extract_drama_name [⟨"f1", some "MyShow.S01E02.1080p.mkv", 100,
      "video/x-matroska"⟩] = "Myshow. .1080P" ∧
    extract_drama_name [] = "New Drama Post" ∧
    (f.file_name = none → extract_drama_name (f :: rest) = "New Drama Post") ∧
    (f.file_name = some "" → extract_drama_name (f :: rest) = "New Drama Post") ∧
    (f.file_name = some nm → nm ≠ "" → pyStrip (cleanDramaName nm.toList) = [] →
      extract_drama_name (f :: rest) = "New Drama Post") := by
  refine ⟨by decide, rfl, ?_, ?_, ?_⟩
  · intro h; simp [extract_drama_name, h]
  · intro h; simp [extract_drama_name, h]
  · intro h1 h2 h3
    have h3d : pyStrip (cleanDramaName nm.data) = [] := h3
    simp [extract_drama_name, h1, h2, h3d]

/-- Witness for C1 covering the whitespace-only-result fallback, the
missing-name fallback and the empty-name fallback at concrete inputs. -/
theorem C1_witness :
    extract_drama_name [⟨"fx", some "---", 1, "v"⟩] = "New Drama Post" ∧
    extract_drama_name [⟨"fy", none, 1, "v"⟩] = "New Drama Post" ∧
    extract_drama_name [⟨"fz", some "", 1, "v"⟩] = "New Drama Post" :=
  ⟨(C1_extract_drama_name ⟨"fx", some "---", 1, "v"⟩ [] "---").2.2.2.2 rfl
      (by decide) (by decide),
   (C1_extract_drama_name ⟨"fy", none, 1, "v"⟩ [] "x").2.2.1 rfl,
   (C1_extract_drama_name ⟨"fz", some "", 1, "v"⟩ [] "x").2.2.2.1 rfl⟩

/-! ## Claim C2 -/

/-- C2 counterexample: the validity test of add_to_section is membership
among the keys of the document, and those include search_data; adding to
search_data therefore reports success, while the claim requires a failing
no-op for every section name that is not one of the four content
sequences. -/
theorem C2_counterexample :
    (add_to_section ⟨[], [], [], [], []⟩ "search_data" [("title", "X")] "T1").1 = true ∧
    "search_data" ∉ ["home_posts", "ongoing_dramas", "blog_posts", "all_posts"] :=
  ⟨by decide, by decide⟩

/-- C2 (amended): for every section name that is not one of the five keys
of the document, add_to_section is a no-op that reports failure; for each
of the four content sequences it reports success and inserts the record at
position 0, stamping a timestamp only if one is absent; the fifth key
search_data is also accepted with success, but the inserted record is
immediately overwritten by the search-index recompute, so the result is
exactly that of update_search_data. -/
theorem C2_add_to_section :
    (∀ (d : SiteData) (sec : String) (pd : Post) (now : String),
       sec ∉ sectionKeys → add_to_section d sec pd now = (false, d)) ∧
    (∀ (d : SiteData) (sec : String) (pd : Post) (now : String),
       sec ∈ ["home_posts", "ongoing_dramas", "blog_posts", "all_posts"] →
       (add_to_section d sec pd now).1 = true ∧
       getSection (add_to_section d sec pd now).2 sec =
         (if dcontains pd "timestamp" then pd else dset pd "timestamp" now) ::
           getSection d sec) ∧
    (∀ (d : SiteData) (pd : Post) (now : String),
       add_to_section d "search_data" pd now = (true, (update_search_data d).2)) := by
  refine ⟨?_, ?_, ?_⟩
  · intro d sec pd now h
    simp [add_to_section, List.contains, h]
  · intro d sec pd now h
    simp only [List.mem_cons, List.not_mem_nil, or_false] at h
    rcases h with rfl | rfl | rfl | rfl <;> exact ⟨rfl, rfl⟩
  · intro d pd now
    rfl

/-- Witness for C2 at concrete inputs: a bogus section name fails without
mutation, a content section receives the record at the front, and
search_data is accepted. -/
theorem C2_witness :
    add_to_section ⟨[], [], [], [], []⟩ "bogus" [("title", "X")] "T1" =
      (false, ⟨[], [], [], [], []⟩) ∧
    getSection (add_to_section ⟨[], [], [], [], []⟩ "home_posts"
        [("title", "X")] "T1").2 "home_posts" =
      [[("title", "X"), ("timestamp", "T1")]] ∧
    add_to_section ⟨[], [], [], [], []⟩ "search_data" [("title", "X")] "T1" =
      (true, (update_search_data ⟨[], [], [], [], []⟩).2) :=
  ⟨C2_add_to_section.1 ⟨[], [], [], [], []⟩ "bogus" [("title", "X")] "T1" (by decide),
   by rw [(C2_add_to_section.2.1 ⟨[], [], [], [], []⟩ "home_posts"
       [("title", "X")] "T1" (by decide)).2]; decide,
   C2_add_to_section.2.2 ⟨[], [], [], [], []⟩ [("title", "X")] "T1"⟩

/-! ## Claim C3 -/

/-- C3 counterexample: in a 3-item batch where the link resolution of item
f2 raises, process_files still returns three records, not two — the
exception is swallowed inside get_file_direct_link and the item is stored
with a null direct link rather than skipped. -/
theorem C3_counterexample :
    (process_files testEnv [⟨"f1", some "a.mkv", 10, "v"⟩, ⟨"f2", some "b.mkv", 20, "v"⟩,
      ⟨"f3", some "c.mkv", 30, "v"⟩] "@ch").length = 3 ∧
    ((process_files testEnv [⟨"f1", some "a.mkv", 10, "v"⟩, ⟨"f2", some "b.mkv", 20, "v"⟩,
      ⟨"f3", some "c.mkv", 30, "v"⟩] "@ch").map (fun fd => fd.file_id) ≠ ["f1", "f3"]) ∧
    testEnv.resolve "f2" = .throws :=
  ⟨by decide, by decide, by decide⟩

/-- C3 (amended): process_files keeps the original relative order and
skips exactly the items whose per-item body (the database insert) raises;
an item whose link resolution raises is still included, with its direct
link equal to the (then null) result of get_file_direct_link and a null
shortened link. -/
theorem C3_process_files (env : PipelineEnv) (files : List TgDoc) (ch : String) :
    ((process_files env files ch).map (fun fd => fd.file_id) =
      (files.filter (fun f => !(env.insertThrows f.file_id))).map
        (fun f => f.file_id)) ∧
    (∀ fd ∈ process_files env files ch,
       fd.direct_link = get_file_direct_link env fd.file_id ∧
       fd.channel_link = ch ∧ fd.uploaded_at = env.now ∧
       (fd.direct_link = none → fd.shortened_link = none)) ∧
    (∀ fid, env.resolve fid = .throws → get_file_direct_link env fid = none) := by
  refine ⟨?_, ?_, ?_⟩
  · induction files with
    | nil => rfl
    | cons f rest ih =>
      by_cases hI : env.insertThrows f.file_id = true
      · simpa [process_files, hI] using ih
      · simpa [process_files, hI] using ih
  · induction files with
    | nil => intro fd h; simp [process_files] at h
    | cons f rest ih =>
      intro fd h
      by_cases hI : env.insertThrows f.file_id = true
      · simp only [process_files, hI, if_true] at h
        exact ih fd h
      · simp only [process_files, hI, if_false, Bool.false_eq_true] at h
        rcases List.mem_cons.mp h with rfl | h2
        · refine ⟨rfl, rfl, rfl, ?_⟩
          intro hdl
          have hdl2 : get_file_direct_link env f.file_id = none := hdl
          simp [hdl2]
        · exact ih fd h2
  · intro fid h
    simp [get_file_direct_link, h]

/-- A concrete environment in which the database insert for file f2
raises (so the item is skipped) and the getFile lookup for f3 raises (so
its record keeps a null link). -/
def testEnvSkip : PipelineEnv :=
  { token := "tok",
    resolve := fun fid => if fid = "f3" then .throws else .ok ("path/" ++ fid),
    shortenResult := fun _ => none,
    insertThrows := fun fid => fid == "f2",
    now := "2024-01-01T00:00:00" }

/-- Witness for C3: with f2 skipped by a raising insert and f3 resolving
to no link, the output lists f1 and f3 in order and the f3 record carries
null links. -/
theorem C3_witness :
    ((process_files testEnvSkip [⟨"f1", some "a.mkv", 10, "v"⟩,
        ⟨"f2", some "b.mkv", 20, "v"⟩, ⟨"f3", some "c.mkv", 30, "v"⟩] "@ch").map
      (fun fd => fd.file_id) = ["f1", "f3"]) ∧
    get_file_direct_link testEnvSkip "f3" = none ∧
    (⟨"f3", "c.mkv", "@ch", none, none, 30, "v",
        "2024-01-01T00:00:00"⟩ : FileData).direct_link =
      get_file_direct_link testEnvSkip "f3" ∧
    (⟨"f3", "c.mkv", "@ch", none, none, 30, "v",
        "2024-01-01T00:00:00"⟩ : FileData).shortened_link = none :=
  ⟨by
    rw [(C3_process_files testEnvSkip [⟨"f1", some "a.mkv", 10, "v"⟩,
      ⟨"f2", some "b.mkv", 20, "v"⟩, ⟨"f3", some "c.mkv", 30, "v"⟩] "@ch").1]
    decide,
   (C3_process_files testEnvSkip [⟨"f1", some "a.mkv", 10, "v"⟩,
      ⟨"f2", some "b.mkv", 20, "v"⟩, ⟨"f3", some "c.mkv", 30, "v"⟩] "@ch").2.2
     "f3" (by decide),
   ((C3_process_files testEnvSkip [⟨"f1", some "a.mkv", 10, "v"⟩,
      ⟨"f2", some "b.mkv", 20, "v"⟩, ⟨"f3", some "c.mkv", 30, "v"⟩] "@ch").2.1
     _ (by decide)).1,
   ((C3_process_files testEnvSkip [⟨"f1", some "a.mkv", 10, "v"⟩,
      ⟨"f2", some "b.mkv", 20, "v"⟩, ⟨"f3", some "c.mkv", 30, "v"⟩] "@ch").2.1
     _ (by decide)).2.2.2 (by decide)⟩

/-! ## Claim C7 -/

/-- The four content sequences, excluding the derived search_data. -/
def contentSections : List String :=
  ["home_posts", "ongoing_dramas", "blog_posts", "all_posts"]

theorem content_sub_keys {k : String} (h : k ∈ contentSections) : k ∈ sectionKeys := by
  simp only [contentSections, List.mem_cons, List.not_mem_nil, or_false] at h
  rcases h with rfl | rfl | rfl | rfl <;> decide

theorem contains_of_mem {l : List String} {a : String} (h : a ∈ l) :
    l.contains a = true :=
  List.elem_eq_true_of_mem h

theorem getSection_update (d : SiteData) {k : String} (h : k ∈ contentSections) :
    getSection (update_search_data d).2 k = getSection d k := by
  simp only [contentSections, List.mem_cons, List.not_mem_nil, or_false] at h
  rcases h with rfl | rfl | rfl | rfl <;> rfl

theorem getSection_set_self (d : SiteData) {k : String} (v : List Post)
    (h : k ∈ sectionKeys) : getSection (setSection d k v) k = v := by
  simp only [sectionKeys, List.mem_cons, List.not_mem_nil, or_false] at h
  rcases h with rfl | rfl | rfl | rfl | rfl <;> rfl

theorem getSection_set_other (d : SiteData) {k k2 : String} (v : List Post)
    (hk : k ∈ sectionKeys) (hne : k2 ≠ k) :
    getSection (setSection d k v) k2 = getSection d k2 := by
  simp only [sectionKeys, List.mem_cons, List.not_mem_nil, or_false] at hk
  rcases hk with rfl | rfl | rfl | rfl | rfl <;> simp [getSection, setSection, hne]

theorem findTitleAux_none {t : String} :
    ∀ (src : List Post) (i : Nat),
      (∀ p ∈ src, lowerStr (dget p "title" "") ≠ t) → findTitleAux t i src = none := by
  intro src
  induction src with
  | nil => intro i _; rfl
  | cons x rest ih =>
    intro i h
    have hx := h x (List.mem_cons_self x rest)
    simp only [findTitleAux]
    rw [if_neg (by simpa using hx)]
    exact ih (i + 1) (fun p hp => h p (List.mem_cons_of_mem x hp))

/-- C7 counterexample: a document whose ongoing_dramas section holds one
empty record.  The empty title query matches that record case-insensitively
(its missing title reads as the empty string), yet move_post reports
failure and changes nothing, because the Python falsiness test on the
found record treats the empty dictionary like the not-found sentinel. -/
theorem C7_counterexample :
    move_post ⟨[], [[]], [], [], []⟩ "ongoing_dramas" "all_posts" "" "T1" =
      (false, ⟨[], [[]], [], [], []⟩) ∧
    lowerStr (dget ([] : Post) "title" "") = lowerStr "" :=
  ⟨by decide, by decide⟩

/-- C7 (amended): when no record of the source section matches the title
case-insensitively, move_post reports failure and leaves the document
unchanged; when the first matching record is non-empty and the source and
target are distinct content sections, it removes that record from the
source, stamps a new timestamp and a moved_from origin marker, and inserts
it at the front of the target; but when the first matching record is the
empty record, it reports failure and leaves the document unchanged. -/
theorem C7_move_post :
    (∀ (d : SiteData) (fs ts title now : String),
       (∀ p ∈ getSection d fs, lowerStr (dget p "title" "") ≠ lowerStr title) →
       move_post d fs ts title now = (false, d)) ∧
    (∀ (d : SiteData) (fs ts title now : String) (i : Nat) (p : Post),
       fs ∈ contentSections → ts ∈ contentSections → fs ≠ ts →
       findTitle (getSection d fs) (lowerStr title) = some (i, p) → p ≠ [] →
       (move_post d fs ts title now).1 = true ∧
       getSection (move_post d fs ts title now).2 fs =
         (getSection d fs).eraseIdx i ∧
       getSection (move_post d fs ts title now).2 ts =
         dset (dset p "timestamp" now) "moved_from" fs :: getSection d ts) ∧
    (∀ (d : SiteData) (fs ts title now : String) (i : Nat),
       findTitle (getSection d fs) (lowerStr title) = some (i, []) →
       move_post d fs ts title now = (false, d)) := by
  refine ⟨?_, ?_, ?_⟩
  · intro d fs ts title now h
    unfold move_post
    by_cases hg : (!(sectionKeys.contains fs) || !(sectionKeys.contains ts)) = true
    · rw [if_pos hg]
    · rw [if_neg hg]
      show (match findTitle (getSection d fs) (lowerStr title) with
        | none => (false, d)
        | some (i, post) => _) = (false, d)
      rw [findTitle, findTitleAux_none _ 0 h]
  · intro d fs ts title now i p hfs hts hne hfind hp
    have hfs5 := content_sub_keys hfs
    have hts5 := content_sub_keys hts
    have hguard : (!(sectionKeys.contains fs) || !(sectionKeys.contains ts)) = false := by
      rw [contains_of_mem hfs5, contains_of_mem hts5]; rfl
    have hpe : p.isEmpty = false := by
      cases p with
      | nil => exact absurd rfl hp
      | cons a l => rfl
    have hres : move_post d fs ts title now =
        (true, (update_search_data (setSection
          (setSection d fs ((getSection d fs).eraseIdx i)) ts
          (dset (dset p "timestamp" now) "moved_from" fs ::
            getSection (setSection d fs ((getSection d fs).eraseIdx i)) ts))).2) := by
      unfold move_post
      rw [if_neg (by intro hx; rw [hguard] at hx; exact Bool.noConfusion hx)]
      show (match findTitle (getSection d fs) (lowerStr title) with
        | none => (false, d)
        | some (i, post) => _) = _
      rw [hfind]
      simp only [hpe, Bool.false_eq_true, if_false]
    rw [hres]
    refine ⟨rfl, ?_, ?_⟩
    · show getSection (update_search_data _).2 fs = _
      rw [getSection_update _ hfs,
        getSection_set_other _ _ hts5 hne,
        getSection_set_self _ _ hfs5]
    · show getSection (update_search_data _).2 ts = _
      rw [getSection_update _ hts,
        getSection_set_self _ _ hts5,
        getSection_set_other _ _ hfs5 (Ne.symm hne)]
  · intro d fs ts title now i hfind
    unfold move_post
    by_cases hg : (!(sectionKeys.contains fs) || !(sectionKeys.contains ts)) = true
    · rw [if_pos hg]
    · rw [if_neg hg]
      show (match findTitle (getSection d fs) (lowerStr title) with
        | none => (false, d)
        | some (i, post) => _) = (false, d)
      rw [hfind]
      rfl

/-- Witness for C7: a real move between ongoing_dramas and all_posts, a
failing lookup for an absent title, and the empty-record failure, all at
concrete documents. -/
theorem C7_witness :
    ((move_post ⟨[], [[("title", "My Drama"), ("x", "1")]], [], [], []⟩
        "ongoing_dramas" "all_posts" "my DRAMA" "T2").1 = true ∧
      getSection (move_post ⟨[], [[("title", "My Drama"), ("x", "1")]], [], [], []⟩
        "ongoing_dramas" "all_posts" "my DRAMA" "T2").2 "ongoing_dramas" =
        ([[("title", "My Drama"), ("x", "1")]] : List Post).eraseIdx 0 ∧
      getSection (move_post ⟨[], [[("title", "My Drama"), ("x", "1")]], [], [], []⟩
        "ongoing_dramas" "all_posts" "my DRAMA" "T2").2 "all_posts" =
        dset (dset [("title", "My Drama"), ("x", "1")] "timestamp" "T2")
          "moved_from" "ongoing_dramas" :: []) ∧
    move_post ⟨[], [[("title", "My Drama"), ("x", "1")]], [], [], []⟩
      "ongoing_dramas" "all_posts" "Other" "T2" =
      (false, ⟨[], [[("title", "My Drama"), ("x", "1")]], [], [], []⟩) ∧
    move_post ⟨[], [[], [("title", "My Drama")]], [], [], []⟩
      "ongoing_dramas" "all_posts" "" "T2" =
      (false, ⟨[], [[], [("title", "My Drama")]], [], [], []⟩) :=
  ⟨C7_move_post.2.1 ⟨[], [[("title", "My Drama"), ("x", "1")]], [], [], []⟩
      "ongoing_dramas" "all_posts" "my DRAMA" "T2" 0
      [("title", "My Drama"), ("x", "1")] (by decide) (by decide) (by decide)
      (by decide) (by decide),
   C7_move_post.1 ⟨[], [[("title", "My Drama"), ("x", "1")]], [], [], []⟩
      "ongoing_dramas" "all_posts" "Other" "T2" (by decide),
   C7_move_post.2.2 ⟨[], [[], [("title", "My Drama")]], [], [], []⟩
      "ongoing_dramas" "all_posts" "" "T2" 0 (by decide)⟩

/-! ## Claim C4 -/

theorem mem_of_mem_dedup :
    ∀ (l : List Post) (seen : List String) (p : Post),
      p ∈ dedupByTitle l seen → p ∈ l := by
  intro l
  induction l with
  | nil => intro seen p h; simp [dedupByTitle] at h
  | cons x rest ih =>
    intro seen p h
    simp only [dedupByTitle] at h
    by_cases hc : (!(lowerStr (dget x "title" "") == "") &&
        !(List.contains seen (lowerStr (dget x "title" "")))) = true
    · rw [if_pos hc] at h
      rcases List.mem_cons.mp h with rfl | h2
      · exact List.mem_cons_self _ _
      · exact List.mem_cons_of_mem _ (ih _ _ h2)
    · rw [if_neg hc] at h
      exact List.mem_cons_of_mem _ (ih _ _ h)

theorem dedup_unseen_and_pairwise :
    ∀ (l : List Post) (seen : List String),
      (∀ r ∈ dedupByTitle l seen,
        seen.contains (lowerStr (dget r "title" "")) = false) ∧
      List.Pairwise (fun a b : Post =>
          lowerStr (dget a "title" "") ≠ lowerStr (dget b "title" ""))
        (dedupByTitle l seen) := by
  intro l
  induction l with
  | nil =>
    intro seen
    refine ⟨?_, ?_⟩
    · intro r h; simp [dedupByTitle] at h
    · simp [dedupByTitle]
  | cons x rest ih =>
    intro seen
    simp only [dedupByTitle]
    by_cases hc : (!(lowerStr (dget x "title" "") == "") &&
        !(List.contains seen (lowerStr (dget x "title" "")))) = true
    · rw [if_pos hc]
      obtain ⟨ih1, ih2⟩ := ih (lowerStr (dget x "title" "") :: seen)
      have hc2 : ((lowerStr (dget x "title" "") == "") = false) ∧
          List.contains seen (lowerStr (dget x "title" "")) = false := by
        simpa [Bool.and_eq_true, Bool.not_eq_true'] using hc
      refine ⟨?_, ?_⟩
      · intro r h
        rcases List.mem_cons.mp h with rfl | h2
        · exact hc2.2
        · have h3 := ih1 r h2
          simp only [List.contains_cons, Bool.or_eq_false_iff] at h3
          exact h3.2
      · refine List.pairwise_cons.mpr ⟨?_, ih2⟩
        intro b hb he
        have h3 := ih1 b hb
        simp only [List.contains_cons, Bool.or_eq_false_iff, beq_eq_false_iff_ne] at h3
        exact h3.1 he.symm
    · rw [if_neg hc]
      exact ih seen

theorem dedup_keeps_first :
    ∀ (l1 l2 : List Post) (seen : List String) (t : String),
      t ≠ "" → seen.contains t = false →
      (∃ x ∈ l1, lowerStr (dget x "title" "") = t) →
      ∃ r, r ∈ dedupByTitle (l1 ++ l2) seen ∧ r ∈ l1 ∧
        lowerStr (dget r "title" "") = t := by
  intro l1
  induction l1 with
  | nil => intro l2 seen t _ _ hex; simp at hex
  | cons x rest ih =>
    intro l2 seen t ht hseen hex
    simp only [List.cons_append, dedupByTitle]
    by_cases hx : lowerStr (dget x "title" "") = t
    · have hcond : (!(lowerStr (dget x "title" "") == "") &&
          !(List.contains seen (lowerStr (dget x "title" "")))) = true := by
        rw [hx]
        simp only [Bool.and_eq_true, Bool.not_eq_true', beq_eq_false_iff_ne]
        exact ⟨ht, hseen⟩
      rw [if_pos hcond]
      exact ⟨x, List.mem_cons_self _ _, List.mem_cons_self _ _, hx⟩
    · have hex2 : ∃ y ∈ rest, lowerStr (dget y "title" "") = t := by
        rcases hex with ⟨y, hy, hyt⟩
        rcases List.mem_cons.mp hy with rfl | h2
        · exact absurd hyt hx
        · exact ⟨y, h2, hyt⟩
      by_cases hc : (!(lowerStr (dget x "title" "") == "") &&
          !(List.contains seen (lowerStr (dget x "title" "")))) = true
      · rw [if_pos hc]
        have hseen2 : (lowerStr (dget x "title" "") :: seen).contains t = false := by
          simp only [List.contains_cons, Bool.or_eq_false_iff, beq_eq_false_iff_ne]
          exact ⟨fun he => hx he.symm, hseen⟩
        obtain ⟨r, h1, h2, h3⟩ := ih l2 _ t ht hseen2 hex2
        exact ⟨r, List.mem_cons_of_mem _ h1, List.mem_cons_of_mem _ h2, h3⟩
      · rw [if_neg hc]
        obtain ⟨r, h1, h2, h3⟩ := ih l2 seen t ht hseen hex2
        exact ⟨r, h1, List.mem_cons_of_mem _ h2, h3⟩

theorem dget_projOngoing_title (p : Post) :
    dget (projOngoing p) "title" "" = dget p "title" "" := rfl

theorem dget_projOngoing_category (p : Post) :
    dget (projOngoing p) "category" "" = "ongoing" := rfl

/-- C4 counterexample: a document with a record of empty case-folded
title in ongoing_dramas and one with the same (empty) case-folded title in
home_posts.  The claim requires the ongoing copy to appear in search_data,
but the recompute excludes empty titles entirely, so search_data is empty. -/
theorem C4_counterexample :
    (update_search_data ⟨[[("title", "")]], [[("title", "")]], [], [], []⟩).2.search_data = [] ∧
    lowerStr (dget [("title", "")] "title" "") =
      lowerStr (dget [("title", "")] "title" "") :=
  ⟨by decide, rfl⟩

/-- C4 (amended): update_search_data projects the four content sequences
in the fixed iteration order ongoing_dramas, all_posts, blog_posts,
home_posts and deduplicates by lowercased title keeping the first
occurrence; in particular, whenever a record of ongoing_dramas and a
record of home_posts share the same non-empty case-folded title, an
ongoing-category item with that title appears in search_data and no
home-category item with that title does. -/
theorem C4_search_dedup_tiebreak (d : SiteData) (p q : Post)
    (hp : p ∈ d.ongoing_dramas) (hq : q ∈ d.home_posts)
    (heq : lowerStr (dget p "title" "") = lowerStr (dget q "title" ""))
    (hne : lowerStr (dget p "title" "") ≠ "") :
    ((update_search_data d).2.search_data =
      dedupByTitle (d.ongoing_dramas.map projOngoing ++ d.all_posts.map projAll ++
        d.blog_posts.map projBlog ++ d.home_posts.map projHome) []) ∧
    (∃ r, r ∈ (update_search_data d).2.search_data ∧
      dget r "category" "" = "ongoing" ∧
      lowerStr (dget r "title" "") = lowerStr (dget p "title" "")) ∧
    (∀ r ∈ (update_search_data d).2.search_data,
      dget r "category" "" = "home" →
      lowerStr (dget r "title" "") ≠ lowerStr (dget p "title" "")) := by
  have hassoc : d.ongoing_dramas.map projOngoing ++
      (d.all_posts.map projAll ++ (d.blog_posts.map projBlog ++
        d.home_posts.map projHome)) = rawSearchItems d := by
    simp [rawSearchItems, List.append_assoc]
  have hfirst := dedup_keeps_first (d.ongoing_dramas.map projOngoing)
    (d.all_posts.map projAll ++ (d.blog_posts.map projBlog ++
      d.home_posts.map projHome))
    [] (lowerStr (dget p "title" "")) hne rfl
    ⟨projOngoing p, List.mem_map_of_mem _ hp, by rw [dget_projOngoing_title]⟩
  rw [hassoc] at hfirst
  obtain ⟨r0, hr0, hr0mem, hr0t⟩ := hfirst
  have hr0cat : dget r0 "category" "" = "ongoing" := by
    rcases List.mem_map.mp hr0mem with ⟨p0, _, rfl⟩
    exact dget_projOngoing_category p0
  refine ⟨rfl, ⟨r0, hr0, hr0cat, hr0t⟩, ?_⟩
  intro r hr hcat hteq
  have hrne : r ≠ r0 := by
    intro he
    rw [he, hr0cat] at hcat
    exact absurd hcat (by decide)
  have hpw := (dedup_unseen_and_pairwise (rawSearchItems d) []).2
  have hsym : Symmetric (fun a b : Post =>
      lowerStr (dget a "title" "") ≠ lowerStr (dget b "title" "")) :=
    fun _ _ h => Ne.symm h
  have := hpw.forall hsym hr hr0 hrne
  exact this (hteq.trans hr0t.symm)

/-- Witness for C4: a concrete document in which ongoing_dramas and
home_posts share the case-folded title alpha. -/
theorem C4_witness :
    ((update_search_data ⟨[[("title", "alpha"), ("image", "h")]],
        [[("title", "Alpha"), ("image", "o")]], [], [], []⟩).2.search_data =
      dedupByTitle (([[("title", "Alpha"), ("image", "o")]] : List Post).map projOngoing ++
        ([] : List Post).map projAll ++ ([] : List Post).map projBlog ++
        ([[("title", "alpha"), ("image", "h")]] : List Post).map projHome) []) ∧
    (∃ r, r ∈ (update_search_data ⟨[[("title", "alpha"), ("image", "h")]],
        [[("title", "Alpha"), ("image", "o")]], [], [], []⟩).2.search_data ∧
      dget r "category" "" = "ongoing" ∧
      lowerStr (dget r "title" "") =
        lowerStr (dget [("title", "Alpha"), ("image", "o")] "title" "")) ∧
    (∀ r ∈ (update_search_data ⟨[[("title", "alpha"), ("image", "h")]],
        [[("title", "Alpha"), ("image", "o")]], [], [], []⟩).2.search_data,
      dget r "category" "" = "home" →
      lowerStr (dget r "title" "") ≠
        lowerStr (dget [("title", "Alpha"), ("image", "o")] "title" "")) :=
  C4_search_dedup_tiebreak
    ⟨[[("title", "alpha"), ("image", "h")]], [[("title", "Alpha"), ("image", "o")]],
      [], [], []⟩
    [("title", "Alpha"), ("image", "o")] [("title", "alpha"), ("image", "h")]
    (by decide) (by decide) (by decide) (by decide)

/-! ## Claim C6 -/

theorem calculate_match_score_le (q t e c : List Char) :
    calculate_match_score q t e c ≤ 19 := by
  unfold calculate_match_score
  split_ifs <;> omega

theorem mem_bucketsDesc :
    ∀ (l : List SearchHit) (n : Nat) (h : SearchHit),
      h ∈ bucketsDesc l n → h ∈ l ∧ h.match_score < n := by
  intro l n
  induction n with
  | zero => intro h hh; simp [bucketsDesc] at hh
  | succ m ih =>
    intro h hh
    simp only [bucketsDesc, List.mem_append] at hh
    rcases hh with hh | hh
    · rcases List.mem_filter.mp hh with ⟨h1, h2⟩
      have h3 : h.match_score = m := by simpa using h2
      exact ⟨h1, by omega⟩
    · obtain ⟨h1, h2⟩ := ih h hh
      exact ⟨h1, by omega⟩

theorem pairwise_filter_score (l : List SearchHit) (n : Nat) :
    List.Pairwise (fun a b : SearchHit => b.match_score ≤ a.match_score)
      (l.filter (fun h => h.match_score == n)) := by
  induction l with
  | nil => simp
  | cons x rest ih =>
    rw [List.filter_cons]
    by_cases hx : (x.match_score == n) = true
    · rw [if_pos hx]
      refine List.pairwise_cons.mpr ⟨?_, ih⟩
      intro b hb
      have hbn : b.match_score = n := by simpa using (List.mem_filter.mp hb).2
      have hxn : x.match_score = n := by simpa using hx
      omega
    · rw [if_neg hx]
      exact ih

theorem pairwise_bucketsDesc (l : List SearchHit) :
    ∀ n, List.Pairwise (fun a b : SearchHit => b.match_score ≤ a.match_score)
      (bucketsDesc l n) := by
  intro n
  induction n with
  | zero => simp [bucketsDesc]
  | succ m ih =>
    simp only [bucketsDesc]
    refine List.pairwise_append.mpr ⟨pairwise_filter_score l m, ih, ?_⟩
    intro a ha b hb
    have han : a.match_score = m := by simpa using (List.mem_filter.mp ha).2
    have hbm := (mem_bucketsDesc l m b hb).2
    omega

theorem filter_bucketsDesc (l : List SearchHit) :
    ∀ (n s : Nat), (bucketsDesc l n).filter (fun h => h.match_score == s) =
      if s < n then l.filter (fun h => h.match_score == s) else [] := by
  intro n
  induction n with
  | zero => intro s; simp [bucketsDesc]
  | succ m ih =>
    intro s
    simp only [bucketsDesc, List.filter_append, ih]
    by_cases hsm : s = m
    · subst hsm
      rw [List.filter_filter]
      have h1 : (fun h : SearchHit => (h.match_score == s) && (h.match_score == s)) =
          (fun h : SearchHit => h.match_score == s) := by
        funext h; rw [Bool.and_self]
      rw [h1]
      simp [Nat.lt_irrefl, Nat.lt_succ_self]
    · have h0 : List.filter (fun h => h.match_score == s)
          (List.filter (fun h => h.match_score == m) l) = [] := by
        rw [List.filter_filter]
        apply List.filter_eq_nil_iff.mpr
        intro a _
        intro hh
        simp only [Bool.and_eq_true, beq_iff_eq] at hh
        exact hsm (hh.1 ▸ hh.2 ▸ rfl)
      rw [h0]
      by_cases hlt : s < m
      · simp [hlt, Nat.lt_succ_of_lt hlt]
      · have hge : ¬ s < m + 1 := by omega
        simp [hlt, hge]

theorem mem_scanSection {items : List Post} {secName : String} {q : List Char}
    {h : SearchHit} (hh : h ∈ scanSection items secName q) :
    h.category = secName ∧ h.item ∈ items ∧
    h.match_score = calculate_match_score q
      (pyLower (dget h.item "title" "").toList)
      (pyLower (dget h.item "excerpt" "").toList)
      (pyLower (dget h.item "content" "").toList) ∧
    (pyContains (pyLower (dget h.item "title" "").toList) q ||
     pyContains (pyLower (dget h.item "excerpt" "").toList) q ||
     pyContains (pyLower (dget h.item "content" "").toList) q) = true := by
  simp only [scanSection] at hh
  rcases List.mem_filterMap.mp hh with ⟨item, hitem, heq⟩
  by_cases hc : (pyContains (pyLower (dget item "title" "").toList) q ||
      pyContains (pyLower (dget item "excerpt" "").toList) q ||
      pyContains (pyLower (dget item "content" "").toList) q) = true
  · rw [if_pos hc] at heq
    obtain rfl : (⟨item, secName,
        calculate_match_score q (pyLower (dget item "title" "").toList)
          (pyLower (dget item "excerpt" "").toList)
          (pyLower (dget item "content" "").toList)⟩ : SearchHit) = h :=
      Option.some.inj heq
    exact ⟨rfl, hitem, rfl, hc⟩
  · rw [if_neg hc] at heq
    exact Option.noConfusion heq

theorem mem_collectHits {d : SiteData} {q : List Char} {h : SearchHit}
    (hh : h ∈ collectHits d q) :
    h.item ∈ getSection d h.category ∧
    h.category ∈ ["home_posts", "ongoing_dramas", "all_posts", "blog_posts"] ∧
    h.match_score = calculate_match_score q
      (pyLower (dget h.item "title" "").toList)
      (pyLower (dget h.item "excerpt" "").toList)
      (pyLower (dget h.item "content" "").toList) ∧
    (pyContains (pyLower (dget h.item "title" "").toList) q ||
     pyContains (pyLower (dget h.item "excerpt" "").toList) q ||
     pyContains (pyLower (dget h.item "content" "").toList) q) = true := by
  simp only [collectHits, List.mem_append] at hh
  rcases hh with ((hh | hh) | hh) | hh <;>
    obtain ⟨hcat, hitem, hms, hcond⟩ := mem_scanSection hh <;>
    rw [hcat] <;>
    exact ⟨hitem, by decide, hms, hcond⟩

/-- C6 counterexample: the query consisting of one space is non-empty and
occurs as a substring of the title My Drama Show, so the claim predicts a
scored hit; but search_content strips the query before matching and
returns no results at all. -/
theorem C6_counterexample :
    search_content ⟨[[("title", "My Drama Show")]], [], [], [], []⟩ " " = [] ∧
    pyContains (pyLower "My Drama Show".toList) " ".toList = true ∧
    (" " : String) ≠ "" :=
  ⟨by decide, by decide, by decide⟩

/-- C6 (amended): for every query that is non-empty after lowercasing and
stripping, search_content matches the normalised query case-insensitively
as a substring of title, excerpt and content across the four content
sequences; each hit is scored +10 for a title substring match, +5 more for
exact title equality, +3 for an excerpt match and +1 for a content match
(so the query drama scores 15 on title Drama, 10 on title My Drama Show
and 3 on an excerpt-only match); results are sorted by descending score
with ties kept in stable input order, and at most the top 10 are
returned. -/
theorem C6_search_content (d : SiteData) (q : String)
    (hq : pyStrip (pyLower q.toList) ≠ []) :
    (search_content d q =
      (sortByScoreDesc (collectHits d (pyStrip (pyLower q.toList)))).take 10) ∧
    (search_content d q).length ≤ 10 ∧
    List.Pairwise (fun a b : SearchHit => b.match_score ≤ a.match_score)
      (search_content d q) ∧
    (∀ h ∈ search_content d q,
       h.item ∈ getSection d h.category ∧
       h.category ∈ ["home_posts", "ongoing_dramas", "all_posts", "blog_posts"] ∧
       h.match_score = calculate_match_score (pyStrip (pyLower q.toList))
         (pyLower (dget h.item "title" "").toList)
         (pyLower (dget h.item "excerpt" "").toList)
         (pyLower (dget h.item "content" "").toList) ∧
       (pyContains (pyLower (dget h.item "title" "").toList)
          (pyStrip (pyLower q.toList)) ||
        pyContains (pyLower (dget h.item "excerpt" "").toList)
          (pyStrip (pyLower q.toList)) ||
        pyContains (pyLower (dget h.item "content" "").toList)
          (pyStrip (pyLower q.toList))) = true) ∧
    (∀ s : Nat,
      (sortByScoreDesc (collectHits d (pyStrip (pyLower q.toList)))).filter
          (fun h => h.match_score == s) =
        (collectHits d (pyStrip (pyLower q.toList))).filter
          (fun h => h.match_score == s)) ∧
    calculate_match_score "drama".toList "drama".toList [] [] = 15 ∧
    calculate_match_score "drama".toList "my drama show".toList [] [] = 10 ∧
    calculate_match_score "drama".toList "the best".toList
      "a drama excerpt".toList [] = 3 := by
  have hq2 : pyStrip (pyLower q.data) ≠ [] := hq
  have hie : (pyStrip (pyLower q.toList)).isEmpty = false := by
    simp [List.isEmpty_iff, hq, hq2]
  have hmain : search_content d q =
      (sortByScoreDesc (collectHits d (pyStrip (pyLower q.toList)))).take 10 := by
    simp only [search_content]
    rw [hie]
    rfl
  refine ⟨hmain, ?_, ?_, ?_, ?_, by decide, by decide, by decide⟩
  · rw [hmain, List.length_take]
    exact Nat.min_le_left _ _
  · rw [hmain]
    exact List.Pairwise.sublist (List.take_sublist _ _)
      (pairwise_bucketsDesc _ 20)
  · intro h hh
    rw [hmain] at hh
    have h2 := (mem_bucketsDesc _ 20 h (List.mem_of_mem_take hh)).1
    exact mem_collectHits h2
  · intro s
    show (bucketsDesc _ 20).filter _ = _
    rw [filter_bucketsDesc]
    by_cases hlt : s < 20
    · rw [if_pos hlt]
    · rw [if_neg hlt]
      symm
      apply List.filter_eq_nil_iff.mpr
      intro a ha hcnt
      have hms := (mem_collectHits ha).2.2.1
      have h19 := calculate_match_score_le (pyStrip (pyLower q.toList))
        (pyLower (dget a.item "title" "").toList)
        (pyLower (dget a.item "excerpt" "").toList)
        (pyLower (dget a.item "content" "").toList)
      rw [← hms] at h19
      simp only [beq_iff_eq] at hcnt
      omega

/-- Witness for C6 on a three-record document realising the three claimed
scores 15, 10 and 3 for the query drama. -/
theorem C6_witness :
    (search_content ⟨[[("title", "Drama")], [("title", "My Drama Show")],
        [("title", "Best"), ("excerpt", "top drama pick")]], [], [], [], []⟩
      "drama").length ≤ 10 ∧
    List.Pairwise (fun a b : SearchHit => b.match_score ≤ a.match_score)
      (search_content ⟨[[("title", "Drama")], [("title", "My Drama Show")],
        [("title", "Best"), ("excerpt", "top drama pick")]], [], [], [], []⟩
        "drama") ∧
    ([("title", "Drama")] : Post) ∈
      getSection ⟨[[("title", "Drama")], [("title", "My Drama Show")],
        [("title", "Best"), ("excerpt", "top drama pick")]], [], [], [], []⟩
        "home_posts" ∧
    search_content ⟨[[("title", "Drama")], [("title", "My Drama Show")],
        [("title", "Best"), ("excerpt", "top drama pick")]], [], [], [], []⟩
      "drama" =
      [⟨[("title", "Drama")], "home_posts", 15⟩,
       ⟨[("title", "My Drama Show")], "home_posts", 10⟩,
       ⟨[("title", "Best"), ("excerpt", "top drama pick")], "home_posts", 3⟩] :=
  ⟨(C6_search_content ⟨[[("title", "Drama")], [("title", "My Drama Show")],
      [("title", "Best"), ("excerpt", "top drama pick")]], [], [], [], []⟩
      "drama" (by decide)).2.1,
   (C6_search_content ⟨[[("title", "Drama")], [("title", "My Drama Show")],
      [("title", "Best"), ("excerpt", "top drama pick")]], [], [], [], []⟩
      "drama" (by decide)).2.2.1,
   ((C6_search_content ⟨[[("title", "Drama")], [("title", "My Drama Show")],
      [("title", "Best"), ("excerpt", "top drama pick")]], [], [], [], []⟩
      "drama" (by decide)).2.2.2.1
     ⟨[("title", "Drama")], "home_posts", 15⟩ (by decide)).1,
   by decide⟩

end Moon
